import Mathlib

/-
A shallow embedding of the `experiment.py` module (classes `Workflow` and `Task`)
of the esdm-pav-client repository, together with theorems settling the frozen
claims about its natural-language specification.

Modelling conventions:
- Python dicts with string keys are insertion-ordered association lists
  `List (String × String)`; updating an existing key rewrites it in place,
  a new key is appended (`dictInsert`).
- Python exceptions are modelled with `Except PyErr` (or an `Option PyErr`
  component for operations that also mutate state); raising propagates and
  leaves the state components produced so far unchanged, exactly as the
  source mutates nothing after its `raise` statements.
- A Python value that may be `None` or a string is `Option String`;
  `pyStr` is Python's `str(...)` coercion used by `"{0}".format(...)`.
- Python string truthiness: the empty string is falsy.
- `str.split(sep)` for the one-character separator `"="` is `pySplitStr`,
  splitting on every occurrence without collapsing empty segments.
- The regular expression `(\$.*)` of `check_replace_args`, applied to the
  single-line strings this module manipulates, matches from the first `'$'`
  to the end of the string; `re.sub` with that pattern therefore rewrites
  the suffix starting at the first `'$'` (`substFirst`).
-/

namespace Pav

/-- Python exceptions raised by the module: `AttributeError` (with its
message), `TypeError`, `IndexError`. -/
inductive PyErr where
  | attributeError (msg : String)
  | typeError (msg : String)
  | indexError
deriving DecidableEq

/-- A dependency dict as built by `Task.addDependency` / copied by
`Task.copyDependency`: keys `"argument"` (optional), `"type"`, `"task"`.
The `"task"` value is whatever `task.__dict__["name"]` held, hence possibly
`None`. -/
structure DependencyEdge where
  argument : Option String
  type : String
  task : Option String
deriving DecidableEq

/-- The `Task` class: fields set by `Task.__init__`.  The optional
passthrough attributes (`run`, `on_exit`, `on_error`) are exercised by no
claim and are omitted. -/
structure Task where
  name : Option String
  operator : String
  type : String
  arguments : List String
  dependencies : List DependencyEdge
deriving DecidableEq

/-- The value passed as the `task` parameter of `Task.addDependency`: the
source's call sites pass either a `Task` object (`Task.addDependency`'s
documented use) or a bare name string (`Workflow.newTask`,
`find_root_tasks_add_dependencies`). -/
inductive TaskRef where
  | tsk (t : Task)
  | nameStr (s : String)

/-- The `Workflow` class: `name`, `author`, `abstract`, the owned task
list and the task-name counter (class attribute `task_name_counter = 1`;
`self.task_name_counter += 1` turns it into an instance counter, so each
instance behaves as if it owned a counter starting at 1).  Passthrough
attributes from `**kwargs` are exercised by no claim and are omitted. -/
structure Workflow where
  name : String
  author : Option String
  abstract : Option String
  tasks : List Task
  task_name_counter : Nat
deriving DecidableEq

/-- Python's `str(...)` as applied by `format` to a value that is either a
string or `None`. -/
def pyStr : Option String → String
  | none => "None"
  | some s => s

/-- Assignment `d[k] = v` on an insertion-ordered dict: overwrite the
existing entry for `k` in place, else append. -/
def dictInsert (d : List (String × String)) (k v : String) : List (String × String) :=
  if d.any (fun p => p.1 == k) then
    d.map (fun p => if p.1 == k then (k, v) else p)
  else
    d ++ [(k, v)]

/-- Lookup `d[k]` / `k in d.keys()` on a dict. -/
def dictGet (d : List (String × String)) (k : String) : Option String :=
  (d.find? (fun p => p.1 == k)).map (fun p => p.2)

/-- Split a character list at the first occurrence of `c`: returns the
part strictly before and the part strictly after that occurrence, or
`none` when `c` does not occur. -/
def splitFirst (c : Char) : List Char → Option (List Char × List Char)
  | [] => none
  | x :: xs =>
    if x = c then some ([], xs)
    else
      match splitFirst c xs with
      | none => none
      | some (pre, post) => some (x :: pre, post)

/-- Python `str.split` on a one-character separator, on the character
list: splits at every occurrence, keeping empty segments. -/
def pySplit (c : Char) : List Char → List (List Char)
  | [] => [[]]
  | x :: xs =>
    if x = c then [] :: pySplit c xs
    else
      match pySplit c xs with
      | [] => [[x]]
      | h :: t => (x :: h) :: t

/-- Python `s.split(sep)` for the one-character separator `sep`. -/
def pySplitStr (c : Char) (s : String) : List String :=
  (pySplit c s.data).map String.mk

/-- `Task.__init__`: `type` defaults to `"ophidia"` (no claim passes a
`type`), `arguments` is flattened from the dict into the canonical
`"key=value"` list preserving order, `dependencies` starts empty. -/
def Task.init (operator : String) (arguments : List (String × String)) (name : Option String) : Task :=
  ⟨name, operator, "ophidia", arguments.map (fun p => p.1 ++ "=" ++ p.2), []⟩

/-- `Task.addDependency(self, task, argument=None)`.  Its inner
`parameter_check` first requires `isinstance(argument, str)` — so the
default `argument=None` of an omitted argument raises
`AttributeError("argument must be string")` — and then requires
`isinstance(task, Task)`, rejecting the bare name strings some call sites
pass.  With both checks passed, `if not argument:` (string truthiness)
appends an `"embedded"` edge for the empty string and an `"all"` edge
carrying the argument otherwise; the edge's `"task"` value is
`task.__dict__["name"]`. -/
def Task.addDependency (self : Task) (task : TaskRef) (argument : Option String) : Except PyErr Task :=
  match argument, task with
  | none, _ => .error (.attributeError "argument must be string")
  | some _, .nameStr _ => .error (.attributeError "task must be Task object")
  | some a, .tsk target =>
    if a = "" then
      .ok { self with dependencies := self.dependencies ++ [⟨none, "embedded", target.name⟩] }
    else
      .ok { self with dependencies := self.dependencies ++ [⟨some a, "all", target.name⟩] }

/-- `Task.copyDependency`: appends a pre-built edge verbatim. -/
def Task.copyDependency (self : Task) (dependency : DependencyEdge) : Task :=
  { self with dependencies := self.dependencies ++ [dependency] }

/-- The loop body of `Task.reverted_arguments`:
`arguments[arg.split("=")[0]] = arg.split("=")[1]` for each flattened
argument, in order.  Indexing `[1]` raises `IndexError` when the argument
contains no separator (`split` then yields a single segment). -/
def revertedLoop : List String → List (String × String) → Except PyErr (List (String × String))
  | [], acc => .ok acc
  | arg :: rest, acc =>
    match pySplitStr '=' arg with
    | k :: v :: _ => revertedLoop rest (dictInsert acc k v)
    | _ => .error .indexError

/-- `Task.reverted_arguments`: unflattens the `"key=value"` list back into
a dict. -/
def Task.reverted_arguments (t : Task) : Except PyErr (List (String × String)) :=
  revertedLoop t.arguments []

/-- The name-assignment step of `Workflow.addTask`: a task whose `name` is
`None` receives `"{workflow.name}_{task_name_counter}"`. -/
def Workflow.resolveTask (w : Workflow) (t : Task) : Task :=
  if t.name = none then
    { t with name := some (w.name ++ "_" ++ toString w.task_name_counter) }
  else t

/-- `Workflow.addTask`: assign a default name if needed, raise
`AttributeError("task already exists")` on a name collision, raise
`AttributeError("dependency not fulfilled")` when an edge targets a name
not among the attached tasks, else increment the counter and append.  The
result carries the post-call workflow, the post-call task object (whose
name may have been assigned even when the call raises) and the raised
exception, if any. -/
def Workflow.addTask (w : Workflow) (t0 : Task) : Workflow × Task × Option PyErr :=
  if (w.resolveTask t0).name ∈ w.tasks.map Task.name then
    (w, w.resolveTask t0, some (.attributeError "task already exists"))
  else if (w.resolveTask t0).dependencies.any (fun d => decide (d.task ∉ w.tasks.map Task.name)) then
    (w, w.resolveTask t0, some (.attributeError "dependency not fulfilled"))
  else
    let w' : Workflow :=
      { w with tasks := w.tasks ++ [w.resolveTask t0],
               task_name_counter := w.task_name_counter + 1 }
    (w', w.resolveTask t0, none)

/-- `Workflow.getTask`: the comprehension
`[t for t in self.tasks if t["name"] == taskname]` subscripts each stored
`Task` object; `Task` defines no `__getitem__` (the tasks list stopped
holding dicts when line 108 was commented out in favour of appending the
objects themselves), so the first element raises
`TypeError`.  Only on an empty workflow does the comprehension complete,
yielding `len == 0` and the `None` return. -/
def Workflow.getTask (w : Workflow) (taskname : String) : Except PyErr (Option Task) :=
  match w.tasks with
  | [] => .ok none
  | _ :: _ => .error (.typeError "Task object is not subscriptable")

/-- The dependency-resolution loop of `Workflow.newTask`: for each entry
`k ↦ v` of the `dependencies` dict, a truthy (non-empty) `v` yields
`t.addDependency(task=k, argument=v)` and a falsy one
`t.addDependency(task=k)` — in both cases passing the name string `k` as
the `task` parameter. -/
def depsLoop : Task → List (String × String) → Except PyErr Task
  | t, [] => .ok t
  | t, (k, v) :: rest =>
    match (if v ≠ "" then t.addDependency (.nameStr k) (some v)
           else t.addDependency (.nameStr k) none) with
    | .error e => .error e
    | .ok t' => depsLoop t' rest

/-- `Workflow.newTask` (without the `**kwargs` passthrough options no
claim exercises): its `parameter_check` only rejects values of the wrong
Python type, which the Lean types already rule out (`name` may be a
string or `None`); then it builds the `Task`, resolves the `dependencies`
dict via `addDependency`, and attaches via `addTask`.  The result carries
the post-call workflow and the created task or the raised exception. -/
def Workflow.newTask (w : Workflow) (operator : String) (arguments : List (String × String))
    (dependencies : List (String × String)) (name : Option String) :
    Workflow × Except PyErr Task :=
  let t := Task.init operator arguments name
  match depsLoop t dependencies with
  | .error e => (w, .error e)
  | .ok t1 =>
    match w.addTask t1 with
    | (w', t2, none) => (w', .ok t2)
    | (w', _, some e) => (w', .error e)

/-- A Python value that is either a string or a dict — the two shapes
`dependency_check` actually receives. -/
inductive PyVal where
  | pstr (s : String)
  | pdict (d : List (String × String))

/-- `dependency_check` of `Workflow.newSubWorkflow`: rejects non-dicts
("dependency must be a list"), then dicts with more than two keys, with
two keys other than `{"task", "argument"}`, or without a `"task"` key
("Wrong dependency arguments"). -/
def dependency_check : PyVal → Option PyErr
  | .pstr _ => some (.attributeError "dependency must be a list")
  | .pdict d =>
    if d.length > 2 then some (.attributeError "Wrong dependency arguments")
    else if d.length = 2 then
      if "task" ∈ d.map Prod.fst ∧ "argument" ∈ d.map Prod.fst then none
      else some (.attributeError "Wrong dependency arguments")
    else
      if "task" ∈ d.map Prod.fst then none
      else some (.attributeError "Wrong dependency arguments")

/-- The `for dependency in dependencies:` loop of
`find_root_tasks_add_dependencies`.  `dependencies` is bound to the
caller's `dependency` dict, so the loop iterates over the dict's string
keys and hands each key to `dependency_check`, whose
`isinstance(dependency, dict)` test fails on every string. -/
def rootLoop : List (String × String) → Task → Except PyErr Task
  | [], nt => .ok nt
  | (k, _) :: _, _ =>
    match dependency_check (.pstr k) with
    | some e => .error e
    | none =>
      -- unreachable: `dependency_check` rejects every string; were it
      -- passed, `len(dependency.keys())` on a string would raise anyway
      .error (.attributeError "str object has no attribute keys")

/-- `find_root_tasks_add_dependencies`: only a template task with zero
dependencies triggers the loop over the external `dependency` map. -/
def find_root_tasks_add_dependencies (task : Task) (dependency : List (String × String))
    (new_task : Task) : Except PyErr Task :=
  if task.dependencies.length = 0 then rootLoop dependency new_task
  else .ok new_task

/-- `fix_dependency_name`: `"{0}_{1}".format(prefix, dependency_name)`. -/
def fix_dependency_name (dependency_name pfx : String) : String :=
  pfx ++ "_" ++ dependency_name

/-- `add_dependencies`: for a template task with dependencies, copy each
edge dict (`dict(d)` — a fresh copy, the template's edge is never written)
with its `"task"` value rewritten through `fix_dependency_name`, and
append it to the clone via `copyDependency`. -/
def add_dependencies (task new_task : Task) (pfx : String) : Task :=
  if task.dependencies.length > 0 then
    task.dependencies.foldl
      (fun nt d => nt.copyDependency { d with task := some (fix_dependency_name (pyStr d.task) pfx) })
      new_task
  else new_task

/-- `add_task_name`: a truthy (non-empty) caller-supplied `name` yields
`"{name}_{task.name}"`, else `"{host.name}_{task_id}_{task.name}"`. -/
def add_task_name (selfName given_name previous_name : String) (task_id : Nat) : String :=
  if given_name ≠ "" then given_name ++ "_" ++ previous_name
  else selfName ++ "_" ++ toString task_id ++ "_" ++ previous_name

/-- The action of `re.sub("(\$.*)", params[m], s)` guarded by
`re.search`/`re.findall` as in `check_replace_args`, on a single-line
string: when `s` contains a `'$'` and the suffix from its first `'$'` is a
key of `params`, that suffix is replaced by the key's value; otherwise `s`
is returned unchanged. -/
def substFirst (params : List (String × String)) (s : String) : String :=
  match splitFirst '$' s.data with
  | none => s
  | some (pre, post) =>
    match dictGet params (String.mk ('$' :: post)) with
    | some v => String.mk pre ++ v
    | none => s

/-- `check_replace_args`: the first loop inserts each entry under its
(possibly substituted) key; the second loop re-assigns
`new_task_arguments[k]` — under the ORIGINAL key `k` — to the (possibly
substituted) value, in both of its branches. -/
def check_replace_args (params task_arguments : List (String × String)) :
    List (String × String) :=
  let d1 := task_arguments.foldl
    (fun acc kv => dictInsert acc (substFirst params kv.1) kv.2) []
  task_arguments.foldl
    (fun acc kv => dictInsert acc kv.1 (substFirst params kv.2)) d1

/-- The main loop of `Workflow.newSubWorkflow` over the template's tasks,
carrying the host workflow, the 1-based `task_id`, `all_tasks` and
`non_leaf_tasks`.  Any exception raised by `reverted_arguments`,
`find_root_tasks_add_dependencies` or `addTask` propagates with the host
as mutated so far. -/
def embedLoop (hostName label : String) (params dependency : List (String × String)) :
    List Task → Workflow → Nat → List Task → List (Option String) →
    Workflow × Except PyErr (List Task × List (Option String))
  | [], host, _, all_tasks, non_leaf => (host, .ok (all_tasks, non_leaf))
  | task :: rest, host, task_id, all_tasks, non_leaf =>
    let new_task_name := add_task_name hostName label (pyStr task.name) task_id
    match task.reverted_arguments with
    | .error e => (host, .error e)
    | .ok rargs =>
      let new_arguments := check_replace_args params rargs
      let nt0 := Task.init task.operator new_arguments (some new_task_name)
      match find_root_tasks_add_dependencies task dependency nt0 with
      | .error e => (host, .error e)
      | .ok nt1 =>
        let nt2 := add_dependencies task nt1 label
        match host.addTask nt2 with
        | (host', _, some e) => (host', .error e)
        | (host', _, none) =>
          embedLoop hostName label params dependency rest host' (task_id + 1)
            (all_tasks ++ [nt2]) (non_leaf ++ task.dependencies.map DependencyEdge.task)

/-- `Workflow.newSubWorkflow`: `parameter_check` requires `name` to be a
string (raising on the default `None`; `params` and `dependency` are
dicts by typing), `validate_workflow` rejects a template whose `name`
equals the host's, then the per-task loop runs and the tasks of
`all_tasks` whose name is not in `non_leaf_tasks` are returned.  The
result's first component pairs the post-call host with the post-call
template. -/
def Workflow.newSubWorkflow (host template : Workflow) (params dependency : List (String × String))
    (name : Option String) : (Workflow × Workflow) × Except PyErr (List Task) :=
  match name with
  | none => ((host, template), .error (.attributeError "name must be string"))
  | some label =>
    if host.name = template.name then
      ((host, template), .error (.attributeError "Wrong workflow or same workflows"))
    else
      match embedLoop host.name label params dependency template.tasks host 1 [] [] with
      | (host', .error e) => ((host', template), .error e)
      | (host', .ok (all_tasks, non_leaf)) =>
        ((host', template), .ok (all_tasks.filter (fun t => !(non_leaf.contains t.name))))

/-! Concrete instances used to settle the claims. -/

/-- Template task `A` of claim C1: no dependencies. -/
def c1A : Task := ⟨some "A", "opA", "ophidia", [], []⟩

/-- Template task `B` of claim C1: one `"all"` edge to `A` bound to `"x"`. -/
def c1B : Task := ⟨some "B", "opB", "ophidia", [], [⟨some "x", "all", some "A"⟩]⟩

/-- The two-task template of claim C1. -/
def c1tmpl : Workflow := ⟨"tmpl", none, none, [c1A, c1B], 1⟩

/-- The (empty) host of claim C1. -/
def c1host : Workflow := ⟨"host", none, none, [], 1⟩

/-- The clone of `A` the embedding of claim C1 produces. -/
def c1cloneA : Task := ⟨some "sub_A", "opA", "ophidia", [], []⟩

/-- The clone of `B` the embedding of claim C1 produces. -/
def c1cloneB : Task := ⟨some "sub_B", "opB", "ophidia", [], [⟨some "x", "all", some "sub_A"⟩]⟩

/-- C1: embedding the two-task template (`A` with no dependencies, `B` with
an `"all"` edge to `A` bound to `"x"`) into an empty host with
`name="sub"` and no external dependency attaches the clones `sub_A` and
`sub_B` in that order, with `sub_B` carrying the `"all"` edge to `sub_A`
bound to `"x"` — but the value returned is `[sub_A, sub_B]`, both clones,
not the leaf list `[sub_B]` the claim states: `non_leaf_tasks` collects
the template-local target names (`"A"`) while the filter compares them
with the prefixed clone names (`"sub_A"`), so it removes nothing. -/
theorem claim_C1 :
    Workflow.newSubWorkflow c1host c1tmpl [] [] (some "sub") =
      ((⟨"host", none, none, [c1cloneA, c1cloneB], 3⟩, c1tmpl),
       .ok [c1cloneA, c1cloneB]) := by
  rfl

/-- The task attached to the workflow of claim C2. -/
def c2task : Task := ⟨some "t1", "op", "ophidia", [], []⟩

/-- The (initially empty) workflow of claim C2. -/
def c2host : Workflow := ⟨"w", none, none, [], 1⟩

/-- C2: after a successful `addTask` of a task named `"t1"`, `getTask "t1"`
does not return the attached task — it raises `TypeError`, because the
comprehension in `getTask` subscripts the stored `Task` objects
(`t["name"]`), which are not subscriptable. -/
theorem claim_C2 :
    (c2host.addTask c2task).2.2 = none ∧
    (c2host.addTask c2task).1.getTask "t1" =
      .error (.typeError "Task object is not subscriptable") :=
  ⟨rfl, rfl⟩

/-- C3: calling `addDependency` with the `argument` parameter omitted (its
default `None`) never appends an `"embedded"` edge — the inner
`parameter_check` requires `isinstance(argument, str)` and raises
`AttributeError("argument must be string")` on every target task. -/
theorem claim_C3 (t target : Task) :
    t.addDependency (.tsk target) none =
      .error (.attributeError "argument must be string") :=
  rfl

/-- The task named `"T"` attached to the workflow of claim C4. -/
def c4taskT : Task := ⟨some "T", "op", "ophidia", [], []⟩

/-- The workflow of claim C4, holding the task `"T"`. -/
def c4host : Workflow := ⟨"w", none, none, [c4taskT], 1⟩

/-- C4: `newTask` with a non-empty `dependencies` map never succeeds: for
a truthy argument value it calls `addDependency(task=k, argument=v)` with
the name string `k`, which fails the `isinstance(task, Task)` check; for a
falsy value it omits `argument`, which fails the
`isinstance(argument, str)` check.  The workflow is unchanged in both
cases. -/
theorem claim_C4 :
    Workflow.newTask c4host "op2" [] [("T", "x")] none =
      (c4host, .error (.attributeError "task must be Task object")) ∧
    Workflow.newTask c4host "op2" [] [("T", "")] none =
      (c4host, .error (.attributeError "argument must be string")) :=
  ⟨rfl, rfl⟩

/-- The task `"t0"` already attached to the host of claim C5. -/
def c5t0 : Task := ⟨some "t0", "op0", "ophidia", [], []⟩

/-- The host of claim C5, holding the anchor task `"t0"`. -/
def c5host : Workflow := ⟨"w5", none, none, [c5t0], 1⟩

/-- The one-root-task template of claim C5. -/
def c5tmpl : Workflow := ⟨"tmpl5", none, none, [⟨some "A", "opA", "ophidia", [], []⟩], 1⟩

/-- C5: a well-formed non-empty external dependency map
`{"task": "t0"}` never reaches the root clone as an edge — when the first
root task is processed, `find_root_tasks_add_dependencies` iterates the
dict's keys and passes the string key to `dependency_check`, which raises
`AttributeError("dependency must be a list")`; the host gains no task.  A
three-key map fails the same way (through the string-key path, not the
`len > 2` check). -/
theorem claim_C5 :
    Workflow.newSubWorkflow c5host c5tmpl [] [("task", "t0")] (some "sub") =
      ((c5host, c5tmpl), .error (.attributeError "dependency must be a list")) ∧
    Workflow.newSubWorkflow c5host c5tmpl []
        [("task", "t0"), ("argument", "x"), ("foo", "y")] (some "sub") =
      ((c5host, c5tmpl), .error (.attributeError "dependency must be a list")) :=
  ⟨rfl, rfl⟩

/-- C6: substituting `params = {"$size": "big"}` into the argument mapping
`{"$size": "10"}` does not yield exactly `{"big": "10"}` — the second loop
of `check_replace_args` re-assigns the value under the ORIGINAL key, so
the clone's mapping is `{"big": "10", "$size": "10"}`, keeping the
original `"$size"` entry alongside the substituted one.  A `$token` absent
from `params` is left unchanged, as the second conjunct shows. -/
theorem claim_C6 :
    check_replace_args [("$size", "big")] [("$size", "10")] =
      [("big", "10"), ("$size", "10")] ∧
    check_replace_args [("$size", "big")] [("$other", "10")] =
      [("$other", "10")] :=
  ⟨rfl, rfl⟩

/-- A character absent from a list leaves `pySplit` with a single segment. -/
theorem pySplit_of_not_mem (c : Char) (l : List Char) (h : c ∉ l) :
    pySplit c l = [l] := by
  induction l with
  | nil => rfl
  | cons x xs ih =>
    have hx : ¬x = c := by rintro rfl; exact h (List.mem_cons_self x xs)
    have htail : c ∉ xs := fun hm => h (List.mem_cons_of_mem x hm)
    simp only [pySplit, if_neg hx, ih htail]

/-- Splitting at a separator that occurs right after a separator-free
block peels off that block. -/
theorem pySplit_append (c : Char) (k v : List Char) (hk : c ∉ k) :
    pySplit c (k ++ c :: v) = k :: pySplit c v := by
  induction k with
  | nil => simp [pySplit]
  | cons x xs ih =>
    have hx : ¬x = c := by rintro rfl; exact hk (List.mem_cons_self x xs)
    have htail : c ∉ xs := fun hm => hk (List.mem_cons_of_mem x hm)
    rw [List.cons_append]
    simp only [pySplit, if_neg hx, ih htail]

/-- Splitting the canonical `"key=value"` string recovers key and value
when neither contains the separator. -/
theorem flatten_split (k v : String) (hk : '=' ∉ k.data) (hv : '=' ∉ v.data) :
    pySplitStr '=' (k ++ "=" ++ v) = [k, v] := by
  unfold pySplitStr
  have hdata : (k ++ "=" ++ v).data = k.data ++ '=' :: v.data := by
    simp [String.data_append]
  rw [hdata, pySplit_append '=' k.data v.data hk, pySplit_of_not_mem '=' v.data hv]
  rfl

/-- Inserting a fresh key into a dict appends it. -/
theorem dictInsert_of_not_mem (d : List (String × String)) (k v : String)
    (h : k ∉ d.map Prod.fst) : dictInsert d k v = d ++ [(k, v)] := by
  have hfalse : d.any (fun p => p.1 == k) = false := by
    rw [List.any_eq_false]
    intro p hp
    simp only [beq_iff_eq]
    exact fun he => h (he ▸ List.mem_map_of_mem Prod.fst hp)
  simp [dictInsert, hfalse]

/-- The unflattening loop inverts flattening on separator-free mappings
with pairwise distinct keys, relative to any accumulator whose keys are
disjoint from the mapping's. -/
theorem revertedLoop_flatten (m : List (String × String)) :
    ∀ acc : List (String × String),
      (∀ p ∈ m, '=' ∉ p.1.data ∧ '=' ∉ p.2.data) →
      (m.map Prod.fst).Nodup →
      (∀ p ∈ m, p.1 ∉ acc.map Prod.fst) →
      revertedLoop (m.map (fun p => p.1 ++ "=" ++ p.2)) acc = .ok (acc ++ m) := by
  induction m with
  | nil =>
    intro acc _ _ _
    simp [revertedLoop]
  | cons kv m' ih =>
    intro acc hsep hnd hdisj
    obtain ⟨k, v⟩ := kv
    have hk : '=' ∉ k.data := (hsep (k, v) (List.mem_cons_self _ _)).1
    have hv : '=' ∉ v.data := (hsep (k, v) (List.mem_cons_self _ _)).2
    rw [List.map_cons] at hnd
    obtain ⟨hknd, hnd'⟩ := List.nodup_cons.mp hnd
    have hkacc : k ∉ acc.map Prod.fst := by
      simpa using hdisj (k, v) (List.mem_cons_self _ _)
    have hstep : revertedLoop (((k, v) :: m').map (fun p => p.1 ++ "=" ++ p.2)) acc =
        revertedLoop (m'.map (fun p => p.1 ++ "=" ++ p.2)) (dictInsert acc k v) := by
      rw [List.map_cons, revertedLoop, flatten_split k v hk hv]
    rw [hstep, dictInsert_of_not_mem acc k v hkacc]
    rw [ih (acc ++ [(k, v)]) (fun p hp => hsep p (List.mem_cons_of_mem _ hp)) hnd'
      (fun p hp => by
        rw [List.map_append, List.mem_append]
        rintro (hL | hR)
        · exact hdisj p (List.mem_cons_of_mem _ hp) hL
        · have hpk : p.1 = k := by simpa using hR
          have hmem : p.1 ∈ m'.map Prod.fst := List.mem_map_of_mem Prod.fst hp
          rw [hpk] at hmem
          exact hknd hmem)]
    rw [List.append_assoc, List.singleton_append]

/-- C7: for an ordered mapping whose keys and values are free of the
separator `'='` and whose keys are pairwise distinct, unflattening
(`reverted_arguments`) the `"key=value"` list built by the `Task`
constructor gives back the mapping, order preserved. -/
theorem claim_C7 (op : String) (nm : Option String) (m : List (String × String))
    (hsep : ∀ p ∈ m, '=' ∉ p.1.data ∧ '=' ∉ p.2.data)
    (hnd : (m.map Prod.fst).Nodup) :
    (Task.init op m nm).reverted_arguments = .ok m := by
  unfold Task.reverted_arguments
  rw [show (Task.init op m nm).arguments = m.map (fun p => p.1 ++ "=" ++ p.2) from rfl]
  rw [revertedLoop_flatten m [] hsep hnd (fun p _ => by simp)]
  rw [List.nil_append]

/-- C7 witness: the round trip evaluated on the mapping
`[("a", "1"), ("b", "2")]`. -/
theorem claim_C7_witness :
    (∀ p ∈ ([("a", "1"), ("b", "2")] : List (String × String)),
      '=' ∉ p.1.data ∧ '=' ∉ p.2.data) ∧
    (([("a", "1"), ("b", "2")] : List (String × String)).map Prod.fst).Nodup ∧
    (Task.init "op" [("a", "1"), ("b", "2")] none).reverted_arguments =
      .ok [("a", "1"), ("b", "2")] :=
  ⟨by decide, by decide, claim_C7 "op" none [("a", "1"), ("b", "2")] (by decide) (by decide)⟩

/-- Name resolution never touches the dependency edges. -/
theorem resolveTask_dependencies (w : Workflow) (t : Task) :
    (w.resolveTask t).dependencies = t.dependencies := by
  unfold Workflow.resolveTask
  split <;> rfl

/-- Name resolution changes at most the `name` field. -/
theorem resolveTask_name_only (w : Workflow) (t : Task) :
    w.resolveTask t = { t with name := (w.resolveTask t).name } := by
  unfold Workflow.resolveTask
  split <;> rfl

/-- C8: `addTask` of a task whose resolved name collides with an attached
task fails with the duplicate-name error, and `addTask` of a
fresh-named task carrying an edge to an unattached name fails with the
unresolved-dependency error; in both cases the returned workflow is the
untouched input (same task sequence, same counter) and the task object
differs from the input at most in its auto-assigned name. -/
theorem claim_C8 (w : Workflow) (t : Task) :
    ((w.resolveTask t).name ∈ w.tasks.map Task.name →
      w.addTask t = (w, w.resolveTask t, some (PyErr.attributeError "task already exists"))) ∧
    ((w.resolveTask t).name ∉ w.tasks.map Task.name →
      (∃ d ∈ t.dependencies, d.task ∉ w.tasks.map Task.name) →
      w.addTask t = (w, w.resolveTask t, some (PyErr.attributeError "dependency not fulfilled"))) ∧
    w.resolveTask t = { t with name := (w.resolveTask t).name } := by
  refine ⟨?_, ?_, resolveTask_name_only w t⟩
  · intro h
    unfold Workflow.addTask
    rw [if_pos h]
  · intro h1 h2
    unfold Workflow.addTask
    rw [if_neg h1, if_pos]
    rw [List.any_eq_true]
    obtain ⟨d, hd, hdn⟩ := h2
    refine ⟨d, ?_, by simp [hdn]⟩
    rw [resolveTask_dependencies]
    exact hd

/-- The workflow of the C8 witness, holding a task named `"a"`. -/
def c8w : Workflow := ⟨"w8", none, none, [⟨some "a", "op", "ophidia", [], []⟩], 1⟩

/-- The colliding task of the C8 witness, also named `"a"`. -/
def c8t : Task := ⟨some "a", "op2", "ophidia", [], []⟩

/-- C8 witness: the duplicate-name failure evaluated on a concrete
workflow and task. -/
theorem claim_C8_witness :
    ((c8w.resolveTask c8t).name ∈ c8w.tasks.map Task.name) ∧
    c8w.addTask c8t =
      (c8w, c8w.resolveTask c8t, some (PyErr.attributeError "task already exists")) :=
  ⟨by decide, (claim_C8 c8w c8t).1 (by decide)⟩

/-- C9: `addDependency` with the explicitly provided empty string as
argument passes the type check and appends an `"embedded"` edge with no
argument field; the `"all"` shape (with the argument recorded) arises
exactly for non-empty argument strings. -/
theorem claim_C9 (t target : Task) (a : String) (ha : a ≠ "") :
    t.addDependency (.tsk target) (some "") =
      .ok { t with dependencies := t.dependencies ++ [⟨none, "embedded", target.name⟩] } ∧
    t.addDependency (.tsk target) (some a) =
      .ok { t with dependencies := t.dependencies ++ [⟨some a, "all", target.name⟩] } := by
  constructor
  · rfl
  · simp only [Task.addDependency]
    rw [if_neg ha]

/-- The task of the C9 witness. -/
def c9t : Task := ⟨some "t", "op", "ophidia", [], []⟩

/-- The target task of the C9 witness. -/
def c9target : Task := ⟨some "u", "op2", "ophidia", [], []⟩

/-- C9 witness: both edge shapes evaluated on concrete tasks and the
non-empty argument `"x"`. -/
theorem claim_C9_witness :
    ("x" : String) ≠ "" ∧
    (c9t.addDependency (.tsk c9target) (some "") =
      .ok { c9t with dependencies := c9t.dependencies ++ [⟨none, "embedded", c9target.name⟩] } ∧
     c9t.addDependency (.tsk c9target) (some "x") =
      .ok { c9t with dependencies := c9t.dependencies ++ [⟨some "x", "all", c9target.name⟩] }) :=
  ⟨by decide, claim_C9 c9t c9target "x" (by decide)⟩

/-- C10: every embedding call — whether it returns normally or propagates
an exception after some clones were attached — leaves the template
workflow exactly as it was: the loop only reads the template's tasks and
rewrites dependency edges on fresh copies (`dict(d)`), never in place. -/
theorem claim_C10 (host template : Workflow) (params dependency : List (String × String))
    (name : Option String) :
    (Workflow.newSubWorkflow host template params dependency name).1.2 = template := by
  cases name with
  | none => rfl
  | some label =>
    simp only [Workflow.newSubWorkflow]
    split
    · rfl
    · split <;> rfl

end Pav
